import Mathlib

/-!
Verification of the askgpt CLI (src/askgpt/__main__.py) against its
natural-language specification.

The Python module is shallowly embedded: the file system (config file and
session files) becomes an explicit `FsState`, TOML values become `TomlValue`,
`float` temperatures become `ℚ` (the program only stores and passes them,
never computes with them), fallible file reads become `Option`/`Except`, and
the external effects — the fresh UUIDs from `uuid.uuid4()`, the
`datetime.now()` timestamp and the network reply — become explicit
parameters.  Every definition is translated from the source; the two
`spec…` definitions are transcriptions of the specification's words, kept
separate so they can be compared with the code.
-/

/-- A TOML value as it occurs in the askgpt config: a string or a number.
Temperatures are rationals because the program never computes with them. -/
inductive TomlValue where
  | str (s : String)
  | num (q : ℚ)
deriving DecidableEq

/-- The settings document: an ordered key/value mapping, as a Python `dict`
loaded from TOML (insertion-ordered, unique keys when produced by the code). -/
def Settings := List (String × TomlValue)

instance : DecidableEq Settings := by unfold Settings; infer_instance

/-- `d.get(key)` on the settings dict: first binding for `key`, if any. -/
def cfgGet? (cfg : Settings) (key : String) : Option TomlValue :=
  match cfg with
  | [] => none
  | (k, v) :: rest => if k = key then some v else cfgGet? rest key

/-- `d.get(key, default)` on the settings dict. -/
def cfgGetD (cfg : Settings) (key : String) (dflt : TomlValue) : TomlValue :=
  (cfgGet? cfg key).getD dflt

/-- `d[key] = v` on the settings dict: replace in place, else append. -/
def cfgSet (cfg : Settings) (key : String) (v : TomlValue) : Settings :=
  match cfg with
  | [] => [(key, v)]
  | (k, w) :: rest => if k = key then (key, v) :: rest else (k, w) :: cfgSet rest key v

/-- One chat turn `{"role": ..., "content": ...}`. -/
structure Turn where
  role : String
  content : String
deriving DecidableEq

/-- A session record `{id, created_at, messages}` as stored in
`sessions/<id>.json`. -/
structure SessionData where
  id : String
  created_at : String
  messages : List Turn
deriving DecidableEq

/-- The on-disk state of the config file `askgpt.toml`: absent, present but
not parseable as TOML, or a parsed settings document. -/
inductive ConfigFile where
  | missing
  | corrupt
  | good (s : Settings)
deriving DecidableEq

/-- The on-disk state of one session file: absent, present but not readable
as a session record, or a readable record. -/
inductive SessionFile where
  | absent
  | corrupt
  | good (d : SessionData)
deriving DecidableEq

/-- The file-system state owned by the program: the config file plus the
sessions directory (session files keyed by the id in the file name). -/
structure FsState where
  configFile : ConfigFile
  sessions : String → SessionFile

/-- `toml.load` on the config file: parses, or raises (`Except.error`). -/
def toml_load : ConfigFile → Except Unit Settings
  | .good s => .ok s
  | _ => .error ()

/-- `load_config()`: if the file exists, try `toml.load`, catching any
exception into `{}`; if it does not exist, return `{}`.  The result is an
`Except` so that "never raises" is the statement that no `.error` escapes. -/
def load_config (st : FsState) : Except Unit Settings :=
  if st.configFile = .missing then
    .ok []
  else
    match toml_load st.configFile with
    | .ok s => .ok s
    | .error _ => .ok []

/-- The settings `load_config` hands to its callers (the `.error` arm is
unreachable, as proved below). -/
def loadConfigS (st : FsState) : Settings :=
  match load_config st with
  | .ok s => s
  | .error _ => []

/-- `save_config(config)`: overwrite `askgpt.toml` with the given document. -/
def save_config (st : FsState) (cfg : Settings) : FsState :=
  { st with configFile := .good cfg }

/-- `create_new_session()`: write `{id, created_at, messages: []}` to
`sessions/<id>.json`.  The fresh `uuid.uuid4()` and `datetime.now()` are the
explicit parameters `sid` and `t`; the function returns `sid`. -/
def create_new_session (st : FsState) (sid t : String) : FsState :=
  { st with sessions := fun k => if k = sid then .good ⟨sid, t, []⟩ else st.sessions k }

/-- `load_session(session_id)`: `None` if the file is missing or unreadable. -/
def load_session (st : FsState) (sid : String) : Option SessionData :=
  match st.sessions sid with
  | .good d => some d
  | _ => none

/-- `save_session(session_data)`: overwrite the file named by the record's
`id` field. -/
def save_session (st : FsState) (d : SessionData) : FsState :=
  { st with sessions := fun k => if k = d.id then .good d else st.sessions k }

/-- `get_current_session_id()`: `load_config().get("current_session")`. -/
def get_current_session_id (st : FsState) : Option TomlValue :=
  cfgGet? (loadConfigS st) "current_session"

/-- `set_current_session_id(session_id)`: re-load the config, assign the
`current_session` key, save. -/
def set_current_session_id (st : FsState) (sid : String) : FsState :=
  save_config st (cfgSet (loadConfigS st) "current_session" (.str sid))

/-- Python truthiness of the value returned by `get_current_session_id`,
together with the string the id is rendered as when used in a file name:
`None`, `""`, `0` and `0.0` are falsy. -/
def truthyId : Option TomlValue → Option String
  | none => none
  | some (.str s) => if s = "" then none else some s
  | some (.num q) => if q = 0 then none else some (toString q)

/-- The built-in command-suggestion system prompt (module constant). -/
def default_system_prompt : String :=
  "You are an assistant that answers with a single Ubuntu Linux CLI command based on the request. No other output, it must be a valid Ubuntu Linux CLI command and if none can be given, respond with NULL. Again, only output the command, no markdown, no additional words or help."

/-- The built-in markdown system prompt used in AI mode (module constant). -/
def markdown_system_prompt : String :=
  "You are an assistant that responds with output formatted in Markdown."

/-- The parsed CLI flags relevant to `main` (from `parse_args`): `--prompt`
defaults to `None`, `--system-prompt` to `""`, `--model` and `--temperature`
to `None`, `--ai` and `--new-session` to false. -/
structure Args where
  prompt : Option String
  system_prompt : String
  model : Option String
  temperature : Option ℚ
  ai : Bool
  new_session : Bool
deriving DecidableEq

/-- Line 215 of `main`:
`system_prompt = markdown_system_prompt if args.ai else args.system_prompt`. -/
def effSystemPrompt (args : Args) : String :=
  if args.ai then markdown_system_prompt else args.system_prompt

/-- Line 221 of `main`:
`model = args.model if args.model is not None else config.get("model", "gpt-4o-mini")`. -/
def effModel (argModel : Option String) (config : Settings) : TomlValue :=
  match argModel with
  | some m => .str m
  | none => cfgGetD config "model" (.str "gpt-4o-mini")

/-- Line 222 of `main`:
`temperature = args.temperature if args.temperature is not None else config.get("temperature", 0.7)`. -/
def effTemperature (argTemp : Option ℚ) (config : Settings) : TomlValue :=
  match argTemp with
  | some x => .num x
  | none => cfgGetD config "temperature" (.num 0.7)

/-- The message list `query_chatgpt` (non-streaming, default mode) builds,
lines 115-118: an empty system prompt is replaced by the built-in default,
then `[system, user]`. -/
def query_chatgpt_messages (prompt sp : String) : List Turn :=
  let sp2 := if sp = "" then default_system_prompt else sp
  [⟨"system", sp2⟩, ⟨"user", prompt⟩]

/-- The accumulation loop of `query_chatgpt_streaming`, lines 146-157: each
chunk's `delta.content` is a string or not (`Option String`); string payloads
are appended to the buffer in arrival order, others are skipped. -/
def query_chatgpt_streaming (chunks : List (Option String)) : String :=
  chunks.foldl (fun acc c => match c with | some s => acc ++ s | none => acc) ""

/-- Lines 225-245 of `main`: resolve the session for an AI-mode invocation.
`f1` is the fresh uuid for a session created before the load, `f2` the fresh
uuid for the replacement created when the load fails, `t` the timestamp.
Returns the session id used, what the final `load_session` produced (the code
indexes into it unconditionally, so `none` would be a crash), and the
resulting file-system state. -/
def resolveSession (st : FsState) (newSession : Bool) (f1 f2 t : String) :
    String × Option SessionData × FsState :=
  let firstPhase : String × FsState :=
    if newSession then
      (f1, set_current_session_id (create_new_session st f1 t) f1)
    else
      match truthyId (get_current_session_id st) with
      | some sid => (sid, st)
      | none => (f1, set_current_session_id (create_new_session st f1 t) f1)
  let sid := firstPhase.1
  let st1 := firstPhase.2
  match load_session st1 sid with
  | some d => (sid, some d, st1)
  | none =>
    let st2 := set_current_session_id (create_new_session st1 f2 t) f2
    (f2, load_session st2 f2, st2)

/-- Lines 247-258 of `main`: the outgoing message list.  If the session has
no stored messages, start with a system turn; else start with the stored
messages; then append the new user turn. -/
def assembleOutgoing (stored : List Turn) (sp prompt : String) : List Turn :=
  (if stored.isEmpty then [⟨"system", sp⟩] else stored) ++ [⟨"user", prompt⟩]

/-- Lines 263-275 of `main`: the messages persisted after the reply.  On a
first interaction the whole outgoing list plus the assistant turn is stored;
otherwise the stored messages are extended by the user and assistant turns. -/
def updatedMessages (stored sent : List Turn) (prompt reply : String) : List Turn :=
  if stored.isEmpty then sent ++ [⟨"assistant", reply⟩]
  else stored ++ [⟨"user", prompt⟩, ⟨"assistant", reply⟩]

/-- The observable outcome of one `main()` invocation: usage exit (no
prompt), a crash in AI mode (indexing a `None` session, never reached), an
AI-mode run (session id, request sent, resolved model and temperature,
reply), or a default-mode run (request sent, resolved model and
temperature). -/
inductive Outcome where
  | usage
  | crash
  | ai (sessionId : String) (sent : List Turn) (model temperature : TomlValue) (reply : String)
  | plain (sent : List Turn) (model temperature : TomlValue)
deriving DecidableEq

/-- The message list an invocation sent to the chat API, if it got that far. -/
def Outcome.sentMessages : Outcome → Option (List Turn)
  | .ai _ sent _ _ _ => some sent
  | .plain sent _ _ => some sent
  | _ => none

/-- `main()` as a state transformer, lines 206-281.  The CLI flags, the up to
two fresh uuids, the timestamp and the network reply are explicit inputs; the
result is the observable outcome plus the final file-system state. -/
def mainStep (st : FsState) (args : Args) (f1 f2 t reply : String) : Outcome × FsState :=
  match args.prompt with
  | none => (.usage, st)
  | some prompt =>
    let sp := effSystemPrompt args
    let config := loadConfigS st
    let model := effModel args.model config
    let temperature := effTemperature args.temperature config
    if args.ai then
      let res := resolveSession st args.new_session f1 f2 t
      match res.2.1 with
      | none => (.crash, res.2.2)
      | some d =>
        let sent := assembleOutgoing d.messages sp prompt
        let d2 : SessionData := { d with messages := updatedMessages d.messages sent prompt reply }
        (.ai res.1 sent model temperature reply, save_session res.2.2 d2)
    else
      (.plain (query_chatgpt_messages prompt sp) model temperature, st)

/-- The messages consist of complete `user`/`assistant` pairs. -/
def pairsUA : List Turn → Bool
  | [] => true
  | [_] => false
  | x :: y :: rest => x.role == "user" && (y.role == "assistant" && pairsUA rest)

/-- A session's message list shape as maintained by the code: an optional
leading system turn followed by complete user/assistant pairs. -/
def sessionInv (ms : List Turn) : Bool :=
  match ms with
  | [] => true
  | x :: rest => if x.role == "system" then pairsUA rest else pairsUA (x :: rest)

/-- Roles strictly alternate, `user` expected first when the flag is true. -/
def altUA : Bool → List Turn → Bool
  | _, [] => true
  | true, x :: rest => x.role == "user" && altUA false rest
  | false, x :: rest => x.role == "assistant" && altUA true rest

/-- The claimed role ordering: an optional leading system turn followed by
strictly alternating user and assistant turns. -/
def roleSeqOk (ms : List Turn) : Bool :=
  match ms with
  | [] => true
  | x :: rest => if x.role == "system" then altUA true rest else altUA true (x :: rest)

/-- Transcribed from the spec's resolution policy: "if `--new-session`
requested, always create; else use stored current id if it resolves to a
valid session, otherwise create one".  The result is the spec's expectation
of the session id used, the session data it holds (a created session is
fresh and empty), and the `current_session` value recorded afterwards. -/
def specSessionResolution (st : FsState) (newSession : Bool) (f1 f2 t : String) :
    String × Option SessionData × Option TomlValue :=
  if newSession then (f1, some ⟨f1, t, []⟩, some (.str f1))
  else
    match truthyId (get_current_session_id st) with
    | none => (f1, some ⟨f1, t, []⟩, some (.str f1))
    | some sid =>
      match load_session st sid with
      | some d => (sid, some d, get_current_session_id st)
      | none => (f2, some ⟨f2, t, []⟩, some (.str f2))

/-- Transcribed from the spec's streaming contract: the final text is the
concatenation, in arrival order, of exactly the chunk payloads that are
strings; every non-string payload is skipped. -/
def specStreamConcat : List (Option String) → String
  | [] => ""
  | some s :: rest => s ++ specStreamConcat rest
  | none :: rest => specStreamConcat rest

/-- Fixture: the empty file system (no config file, no session files). -/
def st0 : FsState := ⟨.missing, fun _ => .absent⟩

/-- Fixture: a file system whose config file is present but unparseable. -/
def stCorrupt : FsState := ⟨.corrupt, fun _ => .absent⟩

/-- Fixture: a file system with a config file holding model and temperature. -/
def stM : FsState :=
  ⟨.good [("model", TomlValue.str "gpt-4"), ("temperature", TomlValue.num 0.9)],
   fun _ => .absent⟩

/-! ### Basic lemmas about the stores -/

theorem cfgGet?_cfgSet_eq (cfg : Settings) (key : String) (v : TomlValue) :
    cfgGet? (cfgSet cfg key v) key = some v := by
  induction cfg with
  | nil => simp [cfgSet, cfgGet?]
  | cons kv rest ih =>
    obtain ⟨k, w⟩ := kv
    by_cases hk : k = key
    · simp [cfgSet, cfgGet?, hk]
    · simp [cfgSet, cfgGet?, hk, ih]

theorem cfgGet?_cfgSet_ne (cfg : Settings) (key k : String) (v : TomlValue)
    (hne : k ≠ key) : cfgGet? (cfgSet cfg key v) k = cfgGet? cfg k :=  by
  have hne2 : key ≠ k := fun h => hne h.symm
  induction cfg with
  | nil => simp [cfgSet, cfgGet?, hne2]
  | cons kv rest ih =>
    obtain ⟨k0, w⟩ := kv
    by_cases hk : k0 = key
    · subst hk
      simp [cfgSet, cfgGet?, hne2]
    · by_cases hk0 : k0 = k <;> simp [cfgSet, cfgGet?, hk, hk0, hne, ih]

theorem loadConfigS_save_config (st : FsState) (cfg : Settings) :
    loadConfigS (save_config st cfg) = cfg := rfl

theorem loadConfigS_create_new_session (st : FsState) (sid t : String) :
    loadConfigS (create_new_session st sid t) = loadConfigS st := rfl

theorem loadConfigS_save_session (st : FsState) (d : SessionData) :
    loadConfigS (save_session st d) = loadConfigS st := rfl

theorem loadConfigS_set_current_ne (st : FsState) (sid k : String)
    (hk : k ≠ "current_session") :
    cfgGet? (loadConfigS (set_current_session_id st sid)) k =
      cfgGet? (loadConfigS st) k := by
  unfold set_current_session_id
  rw [loadConfigS_save_config]
  exact cfgGet?_cfgSet_ne _ _ _ _ hk

theorem get_current_set_current (st : FsState) (sid : String) :
    get_current_session_id (set_current_session_id st sid) = some (.str sid) := by
  unfold get_current_session_id set_current_session_id
  rw [loadConfigS_save_config]
  exact cfgGet?_cfgSet_eq _ _ _

theorem load_session_create_new_session (st : FsState) (sid t : String) :
    load_session (create_new_session st sid t) sid = some ⟨sid, t, []⟩ := by
  simp [load_session, create_new_session]

theorem load_session_set_current (st : FsState) (sid k : String) :
    load_session (set_current_session_id st sid) k = load_session st k := rfl

theorem load_session_save_session_id (st : FsState) (d : SessionData) :
    load_session (save_session st d) d.id = some d := by
  simp [load_session, save_session]

/-! ### Lemmas about the role-sequence predicates -/

theorem pairsUA_append (c1 c2 : String) :
    ∀ l : List Turn, pairsUA l = true →
      pairsUA (l ++ [⟨"user", c1⟩, ⟨"assistant", c2⟩]) = true
  | [], _ => rfl
  | [_], h => by simp [pairsUA] at h
  | x :: y :: rest, h => by
    simp only [pairsUA, Bool.and_eq_true, beq_iff_eq] at h
    simp only [List.cons_append, pairsUA, Bool.and_eq_true, beq_iff_eq]
    exact ⟨h.1, h.2.1, pairsUA_append c1 c2 rest h.2.2⟩

theorem pairsUA_altUA : ∀ l : List Turn, pairsUA l = true → altUA true l = true
  | [], _ => rfl
  | [_], h => by simp [pairsUA] at h
  | x :: y :: rest, h => by
    simp only [pairsUA, Bool.and_eq_true, beq_iff_eq] at h
    simp only [altUA, Bool.and_eq_true, beq_iff_eq, h.1, h.2.1, beq_self_eq_true,
      Bool.true_and, true_and]
    exact pairsUA_altUA rest h.2.2

theorem sessionInv_roleSeqOk (ms : List Turn) (h : sessionInv ms = true) :
    roleSeqOk ms = true := by
  cases ms with
  | nil => rfl
  | cons x rest =>
    simp only [sessionInv] at h
    simp only [roleSeqOk]
    by_cases hx : x.role == "system"
    · rw [if_pos hx] at h ⊢
      exact pairsUA_altUA rest h
    · rw [if_neg hx] at h ⊢
      exact pairsUA_altUA (x :: rest) h

/-- The update step preserves the session shape. -/
theorem sessionInv_updated (stored : List Turn) (sp p r : String)
    (h : sessionInv stored = true) :
    sessionInv (updatedMessages stored (assembleOutgoing stored sp p) p r) = true := by
  cases stored with
  | nil => rfl
  | cons x rest =>
    simp only [updatedMessages, assembleOutgoing, List.isEmpty_cons, if_neg Bool.false_ne_true,
      if_neg (by simp : ¬(false = true))]
    simp only [sessionInv] at h
    simp only [List.cons_append, sessionInv]
    by_cases hx : x.role == "system"
    · rw [if_pos hx] at h ⊢
      exact pairsUA_append p r rest h
    · rw [if_neg hx] at h ⊢
      exact pairsUA_append p r (x :: rest) h

/-! ### Decomposition lemmas for `resolveSession` and `mainStep` -/

theorem resolveSession_eq_spec (st : FsState) (ns : Bool) (f1 f2 t : String) :
    ((resolveSession st ns f1 f2 t).1,
     (resolveSession st ns f1 f2 t).2.1,
     get_current_session_id (resolveSession st ns f1 f2 t).2.2) =
      specSessionResolution st ns f1 f2 t := by
  unfold resolveSession specSessionResolution
  by_cases hns : ns
  · simp only [hns, if_true]
    rw [load_session_set_current, load_session_create_new_session]
    simp [get_current_set_current]
  · simp only [hns, if_false]
    cases htr : truthyId (get_current_session_id st) with
    | none =>
      simp [load_session_set_current, load_session_create_new_session, get_current_set_current]
    | some sid =>
      cases hls : load_session st sid with
      | some d => simp [hls]
      | none =>
        simp [hls, load_session_set_current, load_session_create_new_session,
          get_current_set_current]

theorem specSessionResolution_isSome (st : FsState) (ns : Bool) (f1 f2 t : String) :
    ((specSessionResolution st ns f1 f2 t).2.1).isSome = true := by
  unfold specSessionResolution
  split
  · rfl
  · split
    · rfl
    · split <;> rfl

theorem resolveSession_isSome (st : FsState) (ns : Bool) (f1 f2 t : String) :
    ((resolveSession st ns f1 f2 t).2.1).isSome = true := by
  have h := congrArg (fun x => x.2.1.isSome) (resolveSession_eq_spec st ns f1 f2 t)
  simpa using h.trans (specSessionResolution_isSome st ns f1 f2 t)

theorem mainStep_ai (st : FsState) (p sps : String) (m : Option String) (tq : Option ℚ)
    (ns : Bool) (f1 f2 t r : String) (d : SessionData)
    (hd : (resolveSession st ns f1 f2 t).2.1 = some d) :
    mainStep st ⟨some p, sps, m, tq, true, ns⟩ f1 f2 t r =
      (.ai (resolveSession st ns f1 f2 t).1
        (assembleOutgoing d.messages markdown_system_prompt p)
        (effModel m (loadConfigS st)) (effTemperature tq (loadConfigS st)) r,
       save_session (resolveSession st ns f1 f2 t).2.2
         ⟨d.id, d.created_at,
          updatedMessages d.messages (assembleOutgoing d.messages markdown_system_prompt p) p r⟩) := by
  simp [mainStep, hd, effSystemPrompt]

theorem mainStep_plain (st : FsState) (p sps : String) (m : Option String) (tq : Option ℚ)
    (ns : Bool) (f1 f2 t r : String) :
    mainStep st ⟨some p, sps, m, tq, false, ns⟩ f1 f2 t r =
      (.plain (query_chatgpt_messages p sps) (effModel m (loadConfigS st))
        (effTemperature tq (loadConfigS st)), st) := by
  simp [mainStep, effSystemPrompt]

theorem resolveSession_config_ne (st : FsState) (ns : Bool) (f1 f2 t k : String)
    (hk : k ≠ "current_session") :
    cfgGet? (loadConfigS (resolveSession st ns f1 f2 t).2.2) k =
      cfgGet? (loadConfigS st) k := by
  have hsc : ∀ (X : FsState) (f : String),
      cfgGet? (loadConfigS (set_current_session_id (create_new_session X f t) f)) k =
        cfgGet? (loadConfigS X) k := by
    intro X f
    rw [loadConfigS_set_current_ne _ _ _ hk, loadConfigS_create_new_session]
  have hff : (false = true) = False := by simp
  unfold resolveSession
  by_cases hns : ns
  · simp only [hns, if_true]
    split
    · exact hsc st f1
    · rw [hsc, hsc]
  · simp only [hns, hff, if_false]
    cases htr : truthyId (get_current_session_id st) with
    | none =>
      simp only [htr]
      split
      · exact hsc st f1
      · rw [hsc, hsc]
    | some sid =>
      simp only [htr]
      split
      · rfl
      · rw [hsc]

/-! ### Claims -/

/-- C1 counterexample: with `--ai` and `--system-prompt "X"` on an empty file
system, the system turn in the outgoing message list carries the markdown
prompt, not the supplied flag value — the flag is not the system prompt
actually used in AI mode. -/
theorem C1_counterexample :
    (mainStep st0 ⟨some "hi", "X", none, none, true, true⟩ "f1" "f2" "t0" "r0").1.sentMessages =
      some [⟨"system", markdown_system_prompt⟩, ⟨"user", "hi"⟩] ∧
    markdown_system_prompt ≠ "X" :=
  ⟨rfl, by decide⟩

/-- C1 (amended): in default (non-AI) mode a supplied non-empty
`--system-prompt` value is the system prompt used in the outgoing message
list; in AI mode the flag is ignored and the markdown system prompt is always
the effective system prompt. -/
theorem C1_flag_precedence (st : FsState) (p sps : String) (hne : sps ≠ "")
    (m : Option String) (tq : Option ℚ) (ns : Bool) (f1 f2 t r : String) :
    (mainStep st ⟨some p, sps, m, tq, false, ns⟩ f1 f2 t r).1.sentMessages =
      some [⟨"system", sps⟩, ⟨"user", p⟩] ∧
    effSystemPrompt ⟨some p, sps, m, tq, true, ns⟩ = markdown_system_prompt := by
  constructor
  · rw [mainStep_plain]
    simp [Outcome.sentMessages, query_chatgpt_messages, hne]
  · rfl

/-- C1 witness: the amended statement at a concrete non-empty flag value. -/
theorem C1_flag_precedence_witness :
    ("S" : String) ≠ "" ∧
    ((mainStep st0 ⟨some "hi", "S", none, none, false, false⟩ "f1" "f2" "t0" "r0").1.sentMessages =
        some [⟨"system", "S"⟩, ⟨"user", "hi"⟩] ∧
      effSystemPrompt ⟨some "hi", "S", none, none, true, false⟩ = markdown_system_prompt) :=
  ⟨by decide, C1_flag_precedence st0 "hi" "S" (by decide) none none false "f1" "f2" "t0" "r0"⟩

/-- C2 counterexample: a completed default-mode invocation on an empty file
system leaves the config file absent — no merged settings document is
persisted, and the recognized key `model` is not present afterwards. -/
theorem C2_counterexample :
    (mainStep st0 ⟨some "hi", "", none, none, false, false⟩ "f1" "f2" "t0" "r0").1 =
      .plain [⟨"system", default_system_prompt⟩, ⟨"user", "hi"⟩]
        (.str "gpt-4o-mini") (.num 0.7) ∧
    (mainStep st0 ⟨some "hi", "", none, none, false, false⟩ "f1" "f2" "t0" "r0").2.configFile =
      .missing ∧
    cfgGet? (loadConfigS
      (mainStep st0 ⟨some "hi", "", none, none, false, false⟩ "f1" "f2" "t0" "r0").2) "model" =
      none :=
  ⟨rfl, rfl, rfl⟩

/-- C2 (amended): `main` never persists a merged settings document.  Every
invocation leaves every config key other than `current_session` exactly as it
was, so the built-in defaults are applied only at read time and missing
recognized keys stay missing. -/
theorem C2_config_frame (st : FsState) (p sps : String) (m : Option String)
    (tq : Option ℚ) (ai ns : Bool) (f1 f2 t r k : String)
    (hk : k ≠ "current_session") :
    cfgGet? (loadConfigS (mainStep st ⟨some p, sps, m, tq, ai, ns⟩ f1 f2 t r).2) k =
      cfgGet? (loadConfigS st) k := by
  cases ai
  · rw [mainStep_plain]
  · rcases hd : (resolveSession st ns f1 f2 t).2.1 with _ | d
    · have hs := resolveSession_isSome st ns f1 f2 t
      rw [hd] at hs
      simp at hs
    · rw [mainStep_ai st p sps m tq ns f1 f2 t r d hd]
      rw [loadConfigS_save_session]
      exact resolveSession_config_ne st ns f1 f2 t k hk

/-- C2 witness: the amended frame statement at a concrete AI-mode invocation
that does write the config file. -/
theorem C2_config_frame_witness :
    ("model" : String) ≠ "current_session" ∧
    cfgGet? (loadConfigS
        (mainStep stM ⟨some "hi", "", none, none, true, true⟩ "f1" "f2" "t0" "r0").2) "model" =
      cfgGet? (loadConfigS stM) "model" :=
  ⟨by decide, C2_config_frame stM "hi" "" none none true true "f1" "f2" "t0" "r0" "model" (by decide)⟩

/-- C3: after the reply arrives in AI mode, the persisted messages of the
resolved session become: on a first turn, exactly the outgoing list that was
sent plus one assistant turn with the reply; on subsequent turns, exactly the
stored messages plus one user and one assistant turn — no additional system
turn is added. -/
theorem C3_persisted_update (st : FsState) (p sps : String) (m : Option String)
    (tq : Option ℚ) (ns : Bool) (f1 f2 t r : String) (d : SessionData)
    (hd : (resolveSession st ns f1 f2 t).2.1 = some d) :
    ∃ sent, (mainStep st ⟨some p, sps, m, tq, true, ns⟩ f1 f2 t r).1.sentMessages = some sent ∧
      (load_session (mainStep st ⟨some p, sps, m, tq, true, ns⟩ f1 f2 t r).2 d.id).map
          SessionData.messages =
        some (if d.messages.isEmpty then sent ++ [⟨"assistant", r⟩]
              else d.messages ++ [⟨"user", p⟩, ⟨"assistant", r⟩]) := by
  rw [mainStep_ai st p sps m tq ns f1 f2 t r d hd]
  refine ⟨assembleOutgoing d.messages markdown_system_prompt p, rfl, ?_⟩
  simp [load_session, save_session, updatedMessages]

/-- C3 witness: first turn of a fresh session on an empty file system. -/
theorem C3_persisted_update_witness :
    ∃ sent,
      (mainStep st0 ⟨some "hi", "", none, none, true, true⟩ "f1" "f2" "t0" "r0").1.sentMessages =
        some sent ∧
      (load_session (mainStep st0 ⟨some "hi", "", none, none, true, true⟩ "f1" "f2" "t0" "r0").2
          "f1").map SessionData.messages = some (sent ++ [⟨"assistant", "r0"⟩]) :=
  C3_persisted_update st0 "hi" "" none none true "f1" "f2" "t0" "r0" ⟨"f1", "t0", []⟩ rfl

/-- C4: in AI mode the outgoing message list is: for a session with no prior
messages, exactly a system turn holding the effective system prompt followed
by the new user turn; for a session with prior messages, exactly the stored
messages with the new user turn appended. -/
theorem C4_outgoing_assembly (st : FsState) (p sps : String) (m : Option String)
    (tq : Option ℚ) (ns : Bool) (f1 f2 t r : String) (d : SessionData)
    (hd : (resolveSession st ns f1 f2 t).2.1 = some d) :
    (mainStep st ⟨some p, sps, m, tq, true, ns⟩ f1 f2 t r).1.sentMessages =
      some (if d.messages.isEmpty
            then [⟨"system", effSystemPrompt ⟨some p, sps, m, tq, true, ns⟩⟩, ⟨"user", p⟩]
            else d.messages ++ [⟨"user", p⟩]) := by
  rw [mainStep_ai st p sps m tq ns f1 f2 t r d hd]
  by_cases h : d.messages.isEmpty <;>
    simp [Outcome.sentMessages, assembleOutgoing, effSystemPrompt, h]

/-- C4 witness: first turn of a fresh session on an empty file system. -/
theorem C4_outgoing_assembly_witness :
    (mainStep st0 ⟨some "hi", "", none, none, true, true⟩ "f1" "f2" "t0" "r0").1.sentMessages =
      some [⟨"system", markdown_system_prompt⟩, ⟨"user", "hi"⟩] :=
  C4_outgoing_assembly st0 "hi" "" none none true "f1" "f2" "t0" "r0" ⟨"f1", "t0", []⟩ rfl

/-- C5: an AI-mode invocation preserves the session-shape invariant — if the
resolved session's stored messages are an optional leading system turn
followed by complete user/assistant pairs, then so are the messages persisted
afterwards, and in particular their role sequence is an optional system turn
followed by strictly alternating user and assistant turns. -/
theorem C5_role_alternation (st : FsState) (p sps : String) (m : Option String)
    (tq : Option ℚ) (ns : Bool) (f1 f2 t r : String) (d : SessionData)
    (hd : (resolveSession st ns f1 f2 t).2.1 = some d)
    (hinv : sessionInv d.messages = true) :
    ∃ d2, load_session (mainStep st ⟨some p, sps, m, tq, true, ns⟩ f1 f2 t r).2 d.id =
        some d2 ∧
      roleSeqOk d2.messages = true ∧ sessionInv d2.messages = true := by
  rw [mainStep_ai st p sps m tq ns f1 f2 t r d hd]
  refine ⟨⟨d.id, d.created_at,
    updatedMessages d.messages (assembleOutgoing d.messages markdown_system_prompt p) p r⟩,
    ?_, ?_, ?_⟩
  · simp [load_session, save_session]
  · exact sessionInv_roleSeqOk _ (sessionInv_updated d.messages markdown_system_prompt p r hinv)
  · exact sessionInv_updated d.messages markdown_system_prompt p r hinv

/-- C5 witness: first turn of a fresh (hence empty, invariant-satisfying)
session on an empty file system. -/
theorem C5_role_alternation_witness :
    ∃ d2, load_session
        (mainStep st0 ⟨some "hi", "", none, none, true, true⟩ "f1" "f2" "t0" "r0").2 "f1" =
        some d2 ∧
      roleSeqOk d2.messages = true ∧ sessionInv d2.messages = true :=
  C5_role_alternation st0 "hi" "" none none true "f1" "f2" "t0" "r0" ⟨"f1", "t0", []⟩ rfl rfl

/-- C6: AI-mode session resolution refines the spec's policy — the session id
used, the session data it resolves to, and the recorded current session equal
the spec's expectation (`--new-session` always creates; otherwise the stored
current id is used when it loads as a valid session; otherwise a fresh
session is created and recorded as current) — and the invocation always
proceeds with a valid session. -/
theorem C6_session_resolution (st : FsState) (ns : Bool) (f1 f2 t : String) :
    ((resolveSession st ns f1 f2 t).1,
     (resolveSession st ns f1 f2 t).2.1,
     get_current_session_id (resolveSession st ns f1 f2 t).2.2) =
      specSessionResolution st ns f1 f2 t ∧
    ((resolveSession st ns f1 f2 t).2.1).isSome = true :=
  ⟨resolveSession_eq_spec st ns f1 f2 t, resolveSession_isSome st ns f1 f2 t⟩

/-- C7: effective model and temperature follow CLI flag > config value >
built-in default — with empty settings and no flags the effective values are
`gpt-4o-mini` and `0.7`; a temperature flag `0.5` wins over a config value
`0.9`; a flag always wins; a present config value always wins over the
built-in default. -/
theorem C7_effective_precedence :
    effModel none [] = .str "gpt-4o-mini" ∧
    effTemperature none [] = .num 0.7 ∧
    effTemperature (some 0.5) [("temperature", TomlValue.num 0.9)] = .num 0.5 ∧
    (∀ (mfl : String) (cfg : Settings), effModel (some mfl) cfg = .str mfl) ∧
    (∀ (x : ℚ) (cfg : Settings), effTemperature (some x) cfg = .num x) ∧
    (∀ (v : TomlValue) (cfg : Settings),
      effTemperature none (("temperature", v) :: cfg) = v) ∧
    (∀ (v : TomlValue) (cfg : Settings), effModel none (("model", v) :: cfg) = v) :=
  ⟨rfl, rfl, rfl, fun _ _ => rfl, fun _ _ => rfl, fun _ _ => rfl, fun _ _ => rfl⟩

/-- C8: `load_config` never raises — it returns `.ok` on every file-system
state, and returns the empty settings mapping both when the config file is
missing and when its contents fail to parse. -/
theorem C8_load_config_never_raises (st : FsState) :
    (∃ s, load_config st = .ok s) ∧
    (st.configFile = .missing → load_config st = .ok []) ∧
    (st.configFile = .corrupt → load_config st = .ok []) := by
  rcases st with ⟨cf, ss⟩
  cases cf <;> simp [load_config, toml_load]

/-- C8 witness: the missing-file and unparseable-file cases at concrete
states. -/
theorem C8_load_config_never_raises_witness :
    load_config st0 = .ok [] ∧ load_config stCorrupt = .ok [] :=
  ⟨(C8_load_config_never_raises st0).2.1 rfl,
   (C8_load_config_never_raises stCorrupt).2.2 rfl⟩

/-- C9: streaming accumulation returns the concatenation, in arrival order,
of exactly the chunk payloads that are strings, skipping every non-string
payload; on the chunks `"Hello"`, `" World"`, `None` it returns
`"Hello World"`. -/
theorem C9_stream_accumulation :
    (∀ chunks, query_chatgpt_streaming chunks = specStreamConcat chunks) ∧
    query_chatgpt_streaming [some "Hello", some " World", none] = "Hello World" := by
  constructor
  · have aux : ∀ (cs : List (Option String)) (acc : String),
        cs.foldl (fun a c => match c with | some s => a ++ s | none => a) acc =
          acc ++ specStreamConcat cs := by
      intro cs
      induction cs with
      | nil => intro acc; simp [specStreamConcat]
      | cons c rest ih =>
        intro acc
        cases c with
        | none => simp [specStreamConcat, List.foldl, ih]
        | some s => simp [specStreamConcat, List.foldl, ih, String.append_assoc]
    intro chunks
    have h := aux chunks ""
    simpa [query_chatgpt_streaming, String.empty_append] using h
  · rfl

/-- C10: `set_current_session_id` changes only the `current_session` field —
every other key of the saved config reads exactly as in the previously loaded
config, and `current_session` reads as the given id. -/
theorem C10_set_current_frame (st : FsState) (sid k : String)
    (hk : k ≠ "current_session") :
    cfgGet? (loadConfigS (set_current_session_id st sid)) k =
      cfgGet? (loadConfigS st) k ∧
    cfgGet? (loadConfigS (set_current_session_id st sid)) "current_session" =
      some (.str sid) :=
  ⟨loadConfigS_set_current_ne st sid k hk, by
    have h := get_current_set_current st sid
    simpa [get_current_session_id] using h⟩

/-- C10 witness: the frame statement at a config holding a model key. -/
theorem C10_set_current_frame_witness :
    ("model" : String) ≠ "current_session" ∧
    (cfgGet? (loadConfigS (set_current_session_id stM "s1")) "model" =
        cfgGet? (loadConfigS stM) "model" ∧
      cfgGet? (loadConfigS (set_current_session_id stM "s1")) "current_session" =
        some (.str "s1")) :=
  ⟨by decide, C10_set_current_frame stM "s1" "model" (by decide)⟩
